import Mathlib

/-!
Verification model of the RayOS Linux-subsystem supervision scripts:
the surface/window bridge (scripts/tools/linux_subsystem/surface_bridge.py)
and the guest supervisor read loop (scripts/tools/linux_subsystem/run_linux_guest.py).

The Python code is embedded shallowly: mutable objects become explicit state
records threaded through functions, Python int() becomes an Option-valued
parser, raised ValueError exceptions become an error component in the result,
and files written to disk become fields of the state (the durable frame
artifacts and the rendered registry snapshot).
-/

namespace RayOS

/-! ## Generic string and dictionary helpers -/

/-- Characters matched by the regex word class (letters, digits, underscore),
used to model the word-boundary assertion after a tag name. -/
def wordChar (c : Char) : Bool := c.isAlphanum || c = '_'

/-- Model of Python rstrip with the newline character: remove all trailing
newline characters. -/
def rstripNL (s : String) : String :=
  String.mk ((s.toList.reverse.dropWhile (fun c => c = '\n')).reverse)

/-- Substring occurrence test on character lists. -/
def infixAt : List Char → List Char → Bool
  | n, [] => n.isEmpty
  | n, c :: t => n.isPrefixOf (c :: t) || infixAt n t

/-- Model of the Python membership test of one string inside another. -/
def substrB (needle hay : String) : Bool := infixAt needle.toList hay.toList

/-- Value of a nonempty list of decimal digits. -/
def digitsToNat (cs : List Char) : Nat := cs.foldl (fun a c => a * 10 + (c.toNat - 48)) 0

/-- Nonempty and all ASCII decimal digits. -/
def allDigits (cs : List Char) : Bool := !cs.isEmpty && cs.all Char.isDigit

/-- Strip leading and trailing whitespace, as Python strip() does. -/
def trimWS (cs : List Char) : List Char :=
  ((cs.dropWhile Char.isWhitespace).reverse.dropWhile Char.isWhitespace).reverse

/-- Split on runs of whitespace discarding empty pieces, as Python split()
with no arguments does; the first argument accumulates the current piece in
reverse. -/
def splitWSGo : List Char → List Char → List (List Char)
  | acc, [] => if acc.isEmpty then [] else [acc.reverse]
  | acc, c :: rest =>
    if Char.isWhitespace c then
      if acc.isEmpty then splitWSGo [] rest
      else acc.reverse :: splitWSGo [] rest
    else splitWSGo (c :: acc) rest

/-- Split at every occurrence of a separator character keeping empty pieces,
as Python split with an explicit one-character separator does. -/
def splitOnCharGo (sep : Char) : List Char → List Char → List (List Char)
  | acc, [] => [acc.reverse]
  | acc, c :: rest =>
    if c = sep then acc.reverse :: splitOnCharGo sep [] rest
    else splitOnCharGo sep (c :: acc) rest

/-- Model of Python int() applied to a string: surrounding whitespace is
stripped, an optional single sign is followed by a nonempty run of ASCII
decimal digits; anything else raises ValueError, modelled as none.
(Underscore digit grouping and non-ASCII digits, which CPython also accepts,
do not occur in this protocol and are not modelled.) -/
def pyInt? (s : String) : Option Int :=
  match trimWS s.toList with
  | '+' :: rest => if allDigits rest then some (Int.ofNat (digitsToNat rest)) else none
  | '-' :: rest => if allDigits rest then some (-(Int.ofNat (digitsToNat rest))) else none
  | cs => if allDigits cs then some (Int.ofNat (digitsToNat cs)) else none

/-- Whether a string parses as a Python int. -/
def intOk (s : String) : Bool := (pyInt? s).isSome

/-- Lookup in an insertion-ordered association list modelling a Python dict. -/
def dGet? {α : Type} : List (String × α) → String → Option α
  | [], _ => none
  | (k2, v) :: rest, k => if k2 = k then some v else dGet? rest k

/-- Dict update: an existing key keeps its position, a new key is appended,
matching Python dict insertion-order semantics. -/
def dSet {α : Type} : List (String × α) → String → α → List (String × α)
  | [], k, v => [(k, v)]
  | (k2, v2) :: rest, k, v =>
    if k2 = k then (k, v) :: rest else (k2, v2) :: dSet rest k v

/-- Dict pop: remove the entry for a key if present. -/
def dPop {α : Type} : List (String × α) → String → List (String × α)
  | [], _ => []
  | (k2, v2) :: rest, k => if k2 = k then rest else (k2, v2) :: dPop rest k

/-- Dict membership. -/
def dContains {α : Type} (m : List (String × α)) (k : String) : Bool := (dGet? m k).isSome

/-- Split a token at its first equals sign; none when no equals sign occurs
(such tokens are skipped by the key/value parser). -/
def breakAtEq : List Char → Option (List Char × List Char)
  | [] => none
  | c :: rest =>
    if c = '=' then some ([], rest)
    else match breakAtEq rest with
      | some (a, b) => some (c :: a, b)
      | none => none

/-- Model of the bridge helper that parses the whitespace-separated key=value
tail of a tag line: tokens without an equals sign are skipped, keys and values
are stripped, and a repeated key keeps the last value. -/
def parseKvTail (tail : String) : List (String × String) :=
  let parts := splitWSGo [] tail.toList
  parts.foldl
    (fun m part =>
      match breakAtEq part with
      | none => m
      | some (k, v) => dSet m (String.mk (trimWS k)) (String.mk (trimWS v)))
    []

/-- Model of matching one of the anchored tag regexes: the line must start
with the full tag name, followed by a word boundary; the returned string is
the key=value tail captured by the regex. -/
def tagTail? (tag line : String) : Option String :=
  let p := ("RAYOS_LINUX_SURFACE_" ++ tag).toList
  if p.isPrefixOf line.toList then
    let rest := line.toList.drop p.length
    match rest with
    | [] => some (String.mk rest)
    | c :: _ => if wordChar c then none else some (String.mk rest)
  else none

/-- Stable insertion of one element into a list sorted by a key, placing the
new element after existing elements with an equal key. -/
def insertByKey {α κ : Type} (le : κ → κ → Bool) (key : α → κ) (a : α) :
    List α → List α
  | [] => [a]
  | b :: rest =>
    if le (key b) (key a) then b :: insertByKey le key a rest else a :: b :: rest

/-- Stable sort by a key function, modelling Python sorted with a key. -/
def sortByKey {α κ : Type} (le : κ → κ → Bool) (key : α → κ) (l : List α) : List α :=
  l.foldl (fun acc a => insertByKey le key a acc) []

/-! ## SHA-256 over UTF-8 bytes, modelling hashlib.sha256(...).hexdigest() -/

/-- Modulus for 32-bit words. -/
def M32 : Nat := 4294967296

/-- 32-bit addition. -/
def add32 (a b : Nat) : Nat := (a + b) % M32

/-- 32-bit right rotation. -/
def rotr32 (n x : Nat) : Nat := ((x >>> n) ||| (x <<< (32 - n))) % M32

/-- Three-way xor. -/
def xor3 (a b c : Nat) : Nat := (a ^^^ b) ^^^ c

/-- SHA-256 big sigma 0. -/
def bsig0 (x : Nat) : Nat := xor3 (rotr32 2 x) (rotr32 13 x) (rotr32 22 x)

/-- SHA-256 big sigma 1. -/
def bsig1 (x : Nat) : Nat := xor3 (rotr32 6 x) (rotr32 11 x) (rotr32 25 x)

/-- SHA-256 small sigma 0. -/
def ssig0 (x : Nat) : Nat := xor3 (rotr32 7 x) (rotr32 18 x) (x >>> 3)

/-- SHA-256 small sigma 1. -/
def ssig1 (x : Nat) : Nat := xor3 (rotr32 17 x) (rotr32 19 x) (x >>> 10)

/-- The 64 SHA-256 round constants (FIPS 180-4), written in decimal. -/
def shaK : List Nat :=
  [1116352408, 1899447441, 3049323471, 3921009573, 961987163,
   1508970993, 2453635748, 2870763221, 3624381080, 310598401,
   607225278, 1426881987, 1925078388, 2162078206, 2614888103,
   3248222580, 3835390401, 4022224774, 264347078, 604807628,
   770255983, 1249150122, 1555081692, 1996064986, 2554220882,
   2821834349, 2952996808, 3210313671, 3336571891, 3584528711,
   113926993, 338241895, 666307205, 773529912, 1294757372,
   1396182291, 1695183700, 1986661051, 2177026350, 2456956037,
   2730485921, 2820302411, 3259730800, 3345764771, 3516065817,
   3600352804, 4094571909, 275423344, 430227734, 506948616,
   659060556, 883997877, 958139571, 1322822218, 1537002063,
   1747873779, 1955562222, 2024104815, 2227730452, 2361852424,
   2428436474, 2756734187, 3204031479, 3329325298]

/-- Big-endian 8-byte encoding of the message bit length. -/
def be8 (n : Nat) : List Nat :=
  [(n >>> 56) % 256, (n >>> 48) % 256, (n >>> 40) % 256, (n >>> 32) % 256,
   (n >>> 24) % 256, (n >>> 16) % 256, (n >>> 8) % 256, n % 256]

/-- SHA-256 padding: a 0x80 byte, zero bytes to 56 mod 64, then the bit length. -/
def padMsg (msg : List Nat) : List Nat :=
  let len := msg.length
  msg ++ [128] ++ List.replicate ((119 - len % 64) % 64) 0 ++ be8 (8 * len)

/-- Group bytes into big-endian 32-bit words. -/
def toWords : List Nat → List Nat
  | b0 :: b1 :: b2 :: b3 :: rest => (((b0 * 256 + b1) * 256 + b2) * 256 + b3) :: toWords rest
  | _ => []

/-- Split a word list into 16-word blocks; the fuel, set to the list length,
bounds the structural recursion and is never exhausted on real input. -/
def chunk16F : Nat → List Nat → List (List Nat)
  | 0, _ => []
  | _, [] => []
  | fuel + 1, l => l.take 16 :: chunk16F fuel (l.drop 16)

/-- Split a word list into 16-word blocks. -/
def chunk16 (l : List Nat) : List (List Nat) := chunk16F l.length l

/-- Extend a block towards the 64-word message schedule: while shorter than
64 words, append the next schedule word; the fuel bounds the structural
recursion and 64 steps always suffice. -/
def extendWF : Nat → List Nat → List Nat
  | 0, w => w
  | fuel + 1, w =>
    if w.length < 64 then
      extendWF fuel (w ++ [(ssig1 (w.getD (w.length - 2) 0) + w.getD (w.length - 7) 0 +
                            ssig0 (w.getD (w.length - 15) 0) + w.getD (w.length - 16) 0) % M32])
    else w

/-- Extend a 16-word block to the 64-word message schedule. -/
def extendW (w : List Nat) : List Nat := extendWF 64 w

/-- The eight 32-bit working variables of the compression function. -/
structure Hash8 where
  a : Nat
  b : Nat
  c : Nat
  d : Nat
  e : Nat
  f : Nat
  g : Nat
  hh : Nat
deriving DecidableEq, Repr

/-- One SHA-256 compression round, fed the round constant and schedule word. -/
def shaRound (s : Hash8) (kw : Nat × Nat) : Hash8 :=
  let ch := (s.e &&& s.f) ^^^ ((s.e ^^^ 4294967295) &&& s.g)
  let maj := ((s.a &&& s.b) ^^^ (s.a &&& s.c)) ^^^ (s.b &&& s.c)
  let t1 := (s.hh + bsig1 s.e + ch + kw.1 + kw.2) % M32
  let t2 := (bsig0 s.a + maj) % M32
  { a := (t1 + t2) % M32, b := s.a, c := s.b, d := s.c,
    e := (s.d + t1) % M32, f := s.e, g := s.f, hh := s.g }

/-- Compress one 16-word block into the running hash state. -/
def compressBlock (h0 : Hash8) (block : List Nat) : Hash8 :=
  let s := (shaK.zip (extendW block)).foldl shaRound h0
  { a := add32 h0.a s.a, b := add32 h0.b s.b, c := add32 h0.c s.c, d := add32 h0.d s.d,
    e := add32 h0.e s.e, f := add32 h0.f s.f, g := add32 h0.g s.g, hh := add32 h0.hh s.hh }

/-- The SHA-256 initial hash value (FIPS 180-4), written in decimal. -/
def shaInit : Hash8 :=
  { a := 1779033703, b := 3144134277, c := 1013904242, d := 2773480762,
    e := 1359893119, f := 2600822924, g := 528734635, hh := 1541459225 }

/-- SHA-256 of a byte sequence, as the eight final hash words. -/
def sha256Words (bytes : List Nat) : Hash8 :=
  (chunk16 (toWords (padMsg bytes))).foldl compressBlock shaInit

/-- Lowercase hexadecimal digit. -/
def hexDigit (n : Nat) : Char := if n < 10 then Char.ofNat (48 + n) else Char.ofNat (87 + n)

/-- Eight-digit lowercase hex rendering of a 32-bit word. -/
def toHex8 (w : Nat) : List Char :=
  [hexDigit ((w >>> 28) % 16), hexDigit ((w >>> 24) % 16), hexDigit ((w >>> 20) % 16),
   hexDigit ((w >>> 16) % 16), hexDigit ((w >>> 12) % 16), hexDigit ((w >>> 8) % 16),
   hexDigit ((w >>> 4) % 16), hexDigit (w % 16)]

/-- Model of hashlib.sha256(text.encode("utf-8")).hexdigest(). -/
def sha256hex (s : String) : String :=
  let h := sha256Words ((s.data.flatMap String.utf8EncodeChar).map UInt8.toNat)
  String.mk (toHex8 h.a ++ toHex8 h.b ++ toHex8 h.c ++ toHex8 h.d ++
             toHex8 h.e ++ toHex8 h.f ++ toHex8 h.g ++ toHex8 h.hh)

/-! ## Surface bridge data model (surface_bridge.py) -/

/-- Embedding of the SurfaceInfo dataclass. Optional dataclass fields keep
their Python defaults of None, modelled as none. -/
structure SurfaceInfo where
  surface_id : String
  role : Option String := none
  title : Option String := none
  format : Option String := none
  w : Option Int := none
  h : Option Int := none
  window_id : Option String := none
  parent_surface_id : Option String := none
  states : Option (List String) := none
  x : Option Int := none
  y : Option Int := none
  latest_seq : Option Int := none
  latest_sha256 : Option String := none
  latest_path : Option String := none
deriving DecidableEq, Repr

/-- Embedding of the frozen FrameKey dataclass. -/
structure FrameKey where
  surface_id : String
  seq : Int
deriving DecidableEq, Repr

/-- A frame-content file written under the frames directory: its identifying
surface and sequence number, the exact text content, and its hex digest. -/
structure Artifact where
  surface_id : String
  seq : Int
  content : String
  sha : String
deriving DecidableEq, Repr

/-- One entry of the windows section of the rendered registry snapshot. -/
structure WindowOut where
  window_id : String
  surface_id : String
  title : Option String
  role : Option String
  x : Option Int
  y : Option Int
  w : Option Int
  h : Option Int
  parent_window_id : Option String
  states : Option (List String)
  children : List String
deriving DecidableEq, Repr

/-- The rendered registry snapshot written to registry.json after every
mutation. Surface entries carry all SurfaceInfo fields, so the rendered
surface values are the SurfaceInfo records themselves. -/
structure Registry where
  surfaces : List (String × SurfaceInfo)
  windows : List (String × WindowOut)
  focused_window_id : Option String
  z_order : List String
deriving DecidableEq, Repr

/-- The mutable state of a SurfaceBridge object, plus the files it has
written: frame artifacts and the latest registry snapshot. -/
structure BridgeState where
  surfaces : List (String × SurfaceInfo)
  z_order : List String
  focused_window_id : Option String
  current_key : Option FrameKey
  current_lines : List String
  frames_written : List Artifact
  registry : Option Registry
deriving DecidableEq, Repr

/-- A freshly constructed bridge. -/
def initBridge : BridgeState :=
  { surfaces := [], z_order := [], focused_window_id := none,
    current_key := none, current_lines := [], frames_written := [], registry := none }

/-- A newly created surface record with its stable derived window id, as
built at every implicit or explicit creation site. -/
def newInfo (sid : String) : SurfaceInfo :=
  { surface_id := sid, window_id := some ("win-" ++ sid) }

/-- Append a window id to the z-order unless already present. -/
def zAppendIfMissing (z : List String) (wid : String) : List String :=
  if wid ∈ z then z else z ++ [wid]

/-- The id (or other key) of a tag line, with Python falsiness: a missing key
and an empty value are both rejected. -/
def getNE (kv : List (String × String)) (k : String) : Option String :=
  match dGet? kv k with
  | some s => if s = "" then none else some s
  | none => none

/-- Model of the Python expression kv.get(k) or fallback on optional strings:
a missing key or an empty value falls back. -/
def pyOrStr (v fallback : Option String) : Option String :=
  match v with
  | some s => if s = "" then fallback else some s
  | none => fallback

/-- Model of the field update pattern int(kv[k]) if k in kv else cur:
a present key must parse as a Python int or ValueError is raised. -/
def updIntField (cur : Option Int) (kv : List (String × String)) (k : String) :
    Except String (Option Int) :=
  match dGet? kv k with
  | some v =>
    match pyInt? v with
    | some n => Except.ok (some n)
    | none => Except.error ("ValueError: invalid literal for int() with base 10: " ++ v)
  | none => Except.ok cur

/-- Decorate each surfaces entry with its int-parsed key, as the sort key
computation of sorted(surfaces.items(), key int) does; none models the
ValueError raised on a key that is not a decimal integer string. -/
def surfaceSortKeys? : List (String × SurfaceInfo) → Option (List (Int × (String × SurfaceInfo)))
  | [] => some []
  | p :: rest =>
    match pyInt? p.1 with
    | none => none
    | some n =>
      match surfaceSortKeys? rest with
      | none => none
      | some l => some ((n, p) :: l)

/-- The children_by_window dictionary of the registry writer: every window id
gets an entry, and each child surface with a resolvable parent window is
appended (once) to its parent window's list. -/
def childrenMap (infos : List SurfaceInfo) (surfaces : List (String × SurfaceInfo)) :
    List (String × List String) :=
  let m := infos.foldl
    (fun m s =>
      match s.window_id with
      | none => m
      | some wid => if dContains m wid then m else m ++ [(wid, [])])
    []
  infos.foldl
    (fun m s =>
      match s.parent_surface_id with
      | none => m
      | some p =>
        if p = "" then m
        else
          match dGet? surfaces p with
          | none => m
          | some pi =>
            match pi.window_id, s.window_id with
            | some pw, some sw =>
              let m := if dContains m pw then m else m ++ [(pw, [])]
              let cur := (dGet? m pw).getD []
              if sw ∈ cur then m else dSet m pw (cur ++ [sw])
            | _, _ => m)
    m

/-- One value of the windows section, with the parent window id resolved
through the parent surface when that surface still exists. -/
def windowValue (surfaces : List (String × SurfaceInfo)) (cbw : List (String × List String))
    (info : SurfaceInfo) (wid : String) : WindowOut :=
  { window_id := wid, surface_id := info.surface_id, title := info.title, role := info.role,
    x := info.x, y := info.y, w := info.w, h := info.h,
    parent_window_id :=
      match info.parent_surface_id with
      | some p =>
        match dGet? surfaces p with
        | some pi => pi.window_id
        | none => none
      | none => none,
    states := info.states,
    children := (dGet? cbw wid).getD [] }

/-- Pure rendering of the registry snapshot: surfaces sorted by integer id
(raising ValueError when an id is not a decimal integer string), windows
keyed by window id sorted as strings, focused window and z-order copied. -/
def renderRegistry (st : BridgeState) : Except String Registry :=
  match surfaceSortKeys? st.surfaces with
  | none => Except.error "ValueError: invalid literal for int() with base 10 in registry sort"
  | some dec =>
    let surfaces_out := (sortByKey (fun a b => decide (a ≤ b)) (fun p => p.1) dec).map (fun p => p.2)
    let infos := st.surfaces.map (fun p => p.2)
    let cbw := childrenMap infos st.surfaces
    let wmap := infos.foldl
      (fun m info =>
        match info.window_id with
        | none => m
        | some wid => dSet m wid (windowValue st.surfaces cbw info wid))
      []
    Except.ok
      { surfaces := surfaces_out,
        windows := sortByKey (fun a b => decide (a ≤ b)) (fun p => p.1) wmap,
        focused_window_id := st.focused_window_id,
        z_order := st.z_order }

/-- The write_registry method: render the snapshot and persist it; a render
failure is a raised exception and leaves the previous snapshot on disk. -/
def writeRegistry (st : BridgeState) : BridgeState × Option String :=
  match renderRegistry st with
  | Except.ok r => ({ st with registry := some r }, none)
  | Except.error e => (st, some e)

/-- The get-or-insert used by the CREATE, ROLE, PARENT and STATE branches:
an unseen id is inserted with its derived window id, which is appended to the
z-order when missing. -/
def ensureSurfaceZ (st : BridgeState) (sid : String) : BridgeState :=
  if dContains st.surfaces sid then st
  else
    { st with surfaces := dSet st.surfaces sid (newInfo sid),
              z_order := zAppendIfMissing st.z_order ("win-" ++ sid) }

/-- The CREATE branch: get-or-insert the surface, overwrite role, title and
format with the line's values (or None when absent), then update w and h only
when present on the line. -/
def handleCreate (st : BridgeState) (kv : List (String × String)) :
    BridgeState × Option String :=
  match getNE kv "id" with
  | none => (st, none)
  | some sid =>
    let st := ensureSurfaceZ st sid
    let info := (dGet? st.surfaces sid).getD (newInfo sid)
    let info := { info with role := dGet? kv "role", title := dGet? kv "title",
                            format := dGet? kv "format" }
    match updIntField info.w kv "w" with
    | Except.error e => ({ st with surfaces := dSet st.surfaces sid info }, some e)
    | Except.ok wv =>
      let info := { info with w := wv }
      match updIntField info.h kv "h" with
      | Except.error e => ({ st with surfaces := dSet st.surfaces sid info }, some e)
      | Except.ok hv =>
        writeRegistry { st with surfaces := dSet st.surfaces sid { info with h := hv } }

/-- The ROLE branch: get-or-insert, then keep the previous role when the
line's role is missing or empty. -/
def handleRole (st : BridgeState) (kv : List (String × String)) :
    BridgeState × Option String :=
  match getNE kv "id" with
  | none => (st, none)
  | some sid =>
    let st := ensureSurfaceZ st sid
    let info := (dGet? st.surfaces sid).getD (newInfo sid)
    let info := { info with role := pyOrStr (dGet? kv "role") info.role }
    writeRegistry { st with surfaces := dSet st.surfaces sid info }

/-- The PARENT branch: both child and parent are get-or-inserted, then the
edge is stored on the child only. -/
def handleParent (st : BridgeState) (kv : List (String × String)) :
    BridgeState × Option String :=
  match getNE kv "id", getNE kv "parent" with
  | some sid, some parent =>
    let st := ensureSurfaceZ st sid
    let st := ensureSurfaceZ st parent
    let info := (dGet? st.surfaces sid).getD (newInfo sid)
    let info := { info with parent_surface_id := some parent }
    writeRegistry { st with surfaces := dSet st.surfaces sid info }
  | _, _ => (st, none)

/-- The STATE branch: get-or-insert, then replace the state flags with the
comma-separated list from the line (stripped, empties dropped). -/
def handleState (st : BridgeState) (kv : List (String × String)) :
    BridgeState × Option String :=
  match getNE kv "id" with
  | none => (st, none)
  | some sid =>
    let st := ensureSurfaceZ st sid
    let info := (dGet? st.surfaces sid).getD (newInfo sid)
    let states_raw := (dGet? kv "states").getD ""
    let states := ((splitOnCharGo ',' [] states_raw.toList).map
      (fun cs => String.mk (trimWS cs))).filter (fun s => s ≠ "")
    writeRegistry { st with surfaces := dSet st.surfaces sid { info with states := some states } }

/-- The FOCUS branch: get-or-insert without touching the z-order, ensure a
window id and z-order membership, then either set focus and bring the window
to the front, or clear focus when this window held it. -/
def handleFocus (st : BridgeState) (kv : List (String × String)) :
    BridgeState × Option String :=
  match getNE kv "id" with
  | none => (st, none)
  | some sid =>
    let st :=
      if dContains st.surfaces sid then st
      else { st with surfaces := dSet st.surfaces sid (newInfo sid) }
    let info0 := (dGet? st.surfaces sid).getD (newInfo sid)
    let wid := info0.window_id.getD ("win-" ++ sid)
    let st := { st with surfaces := dSet st.surfaces sid { info0 with window_id := some wid },
                        z_order := zAppendIfMissing st.z_order wid }
    let focused := (dGet? kv "focused").getD ""
    let isFocused :=
      focused = "1" || focused = "true" || focused = "True" || focused = "yes" || focused = "YES"
    if isFocused then
      writeRegistry { st with focused_window_id := some wid,
                              z_order := (st.z_order.erase wid) ++ [wid] }
    else
      let st :=
        if st.focused_window_id = some wid then { st with focused_window_id := none } else st
      writeRegistry st

/-- The CONFIGURE branch: get-or-insert without touching the z-order, then
update x, y, w, h in that order for the keys present on the line. -/
def handleConfigure (st : BridgeState) (kv : List (String × String)) :
    BridgeState × Option String :=
  match getNE kv "id" with
  | none => (st, none)
  | some sid =>
    let st :=
      if dContains st.surfaces sid then st
      else { st with surfaces := dSet st.surfaces sid (newInfo sid) }
    let info := (dGet? st.surfaces sid).getD (newInfo sid)
    match updIntField info.x kv "x" with
    | Except.error e => ({ st with surfaces := dSet st.surfaces sid info }, some e)
    | Except.ok xv =>
      let info := { info with x := xv }
      match updIntField info.y kv "y" with
      | Except.error e => ({ st with surfaces := dSet st.surfaces sid info }, some e)
      | Except.ok yv =>
        let info := { info with y := yv }
        match updIntField info.w kv "w" with
        | Except.error e => ({ st with surfaces := dSet st.surfaces sid info }, some e)
        | Except.ok wv =>
          let info := { info with w := wv }
          match updIntField info.h kv "h" with
          | Except.error e => ({ st with surfaces := dSet st.surfaces sid info }, some e)
          | Except.ok hv =>
            writeRegistry { st with surfaces := dSet st.surfaces sid { info with h := hv } }

/-- The DESTROY branch: drop any in-flight frame for this surface, remove the
surface, then drop its window from focus and z-order. -/
def handleDestroy (st : BridgeState) (kv : List (String × String)) :
    BridgeState × Option String :=
  match getNE kv "id" with
  | none => (st, none)
  | some sid =>
    let st :=
      match st.current_key with
      | some k =>
        if k.surface_id = sid then { st with current_key := none, current_lines := [] } else st
      | none => st
    match dGet? st.surfaces sid with
    | none => writeRegistry st
    | some info =>
      let st := { st with surfaces := dPop st.surfaces sid }
      match info.window_id with
      | none => writeRegistry st
      | some wid =>
        let st :=
          if st.focused_window_id = some wid then { st with focused_window_id := none } else st
        writeRegistry { st with z_order := st.z_order.erase wid }

/-- The flush_current method: clear the in-progress frame slot first; a frame
with no content is dropped unless a partial flush was requested; otherwise the
joined content plus trailing newline is written as an artifact, the owning
surface is re-created when missing, its latest-frame fields are updated, and
the registry is re-serialized. -/
def flushCurrent (st : BridgeState) (allowPartial : Bool) : BridgeState × Option String :=
  match st.current_key with
  | none => (st, none)
  | some key =>
    let lines := st.current_lines
    let st := { st with current_key := none, current_lines := [] }
    if lines.isEmpty && !allowPartial then (st, none)
    else
      let ppm := String.intercalate "\n" lines ++ "\n"
      let sha := sha256hex ppm
      let path := "frames/surface-" ++ key.surface_id ++ "-seq-" ++ toString key.seq ++ ".ppm"
      let art : Artifact := { surface_id := key.surface_id, seq := key.seq, content := ppm, sha := sha }
      let st := { st with frames_written := st.frames_written ++ [art] }
      let st :=
        if dContains st.surfaces key.surface_id then st
        else { st with surfaces := dSet st.surfaces key.surface_id (newInfo key.surface_id) }
      let info := (dGet? st.surfaces key.surface_id).getD (newInfo key.surface_id)
      let info := { info with latest_seq := some key.seq, latest_sha256 := some sha,
                              latest_path := some path }
      writeRegistry { st with surfaces := dSet st.surfaces key.surface_id info }

/-- The FRAME_BEGIN branch: force a non-partial flush of any open frame, then
open a new frame for the line's id and sequence number (defaulting to 0). -/
def handleFrameBegin (st : BridgeState) (kv : List (String × String)) :
    BridgeState × Option String :=
  match flushCurrent st false with
  | (st2, some e) => (st2, some e)
  | (st2, none) =>
    match getNE kv "id" with
    | none => (st2, none)
    | some sid =>
      match pyInt? ((dGet? kv "seq").getD "0") with
      | none => (st2, some "ValueError: invalid literal for int() with base 10 in seq")
      | some seq =>
        ({ st2 with current_key := some ⟨sid, seq⟩, current_lines := [] }, none)

/-- The effective id a FRAME_END line is matched against: the Python
expression sid or current.surface_id, where a missing or empty id value
falls back to the open frame's own id. -/
def frameEndSidEff (kv : List (String × String)) (k : FrameKey) : String :=
  match dGet? kv "id" with
  | some s => if s = "" then k.surface_id else s
  | none => k.surface_id

/-- The FRAME_END branch: a missing or empty id falls back to the open
frame's own id, the sequence number defaults to 0, and the open frame is
flushed only when both match exactly. -/
def handleFrameEnd (st : BridgeState) (kv : List (String × String)) :
    BridgeState × Option String :=
  match pyInt? ((dGet? kv "seq").getD "0") with
  | none => (st, some "ValueError: invalid literal for int() with base 10 in seq")
  | some seq =>
    match st.current_key with
    | none => (st, none)
    | some k =>
      if k.surface_id ≠ frameEndSidEff kv k then (st, none)
      else if k.seq ≠ seq then (st, none)
      else flushCurrent st false

/-- The on_line method: strip trailing newlines, try the nine tag regexes in
source order, and otherwise append the line as content when a frame is open. -/
def onLine (st : BridgeState) (line0 : String) : BridgeState × Option String :=
  let line := rstripNL line0
  match tagTail? "CREATE" line with
  | some t => handleCreate st (parseKvTail t)
  | none =>
  match tagTail? "ROLE" line with
  | some t => handleRole st (parseKvTail t)
  | none =>
  match tagTail? "PARENT" line with
  | some t => handleParent st (parseKvTail t)
  | none =>
  match tagTail? "STATE" line with
  | some t => handleState st (parseKvTail t)
  | none =>
  match tagTail? "FOCUS" line with
  | some t => handleFocus st (parseKvTail t)
  | none =>
  match tagTail? "CONFIGURE" line with
  | some t => handleConfigure st (parseKvTail t)
  | none =>
  match tagTail? "DESTROY" line with
  | some t => handleDestroy st (parseKvTail t)
  | none =>
  match tagTail? "FRAME_BEGIN" line with
  | some t => handleFrameBegin st (parseKvTail t)
  | none =>
  match tagTail? "FRAME_END" line with
  | some t => handleFrameEnd st (parseKvTail t)
  | none =>
    if st.current_key.isSome then ({ st with current_lines := st.current_lines ++ [line] }, none)
    else (st, none)

/-- The close method: partial flush, then a final registry write. -/
def closeBridge (st : BridgeState) : BridgeState × Option String :=
  match flushCurrent st true with
  | (st2, some e) => (st2, some e)
  | (st2, none) => writeRegistry st2

/-- Feed a sequence of lines to the bridge; a raised exception aborts the run
with the state the object had when the exception escaped. -/
def runLines : BridgeState → List String → BridgeState × Option String
  | st, [] => (st, none)
  | st, l :: ls =>
    match onLine st l with
    | (st2, some e) => (st2, some e)
    | (st2, none) => runLines st2 ls

/-! ## Guest supervisor read loop (run_linux_guest.py)

The run_guest read loop is modelled over the sequence of output lines the
supervisor reads from the child. Logging, serial mirroring and the surface
bridge feed do not influence the readiness state machine and are omitted from
the loop state; commands written to the child's stdin are recorded, tagged by
the write site. The child's own exit is modelled as being observed after its
output lines have been consumed. -/

/-- The built-in ready marker constant. -/
def MARKER : String := "RAYOS_LINUX_GUEST_READY"

/-- Default of the inject-ready-marker switch: enabled exactly when the
configured marker is the built-in constant. -/
def defaultInjectReadyMarker (readyMarker : String) : Bool := readyMarker = MARKER

/-- Configuration values of one supervised run. Empty strings model the unset
post-ready send and expect values (Python falsiness). -/
structure GuestConfig where
  readyMarker : String
  injectReadyMarker : Bool
  postReadySend : String
  postReadyExpect : String
deriving DecidableEq, Repr

/-- A command written to the child's stdin, tagged by which of the two write
sites in the loop produced it. -/
inductive StdinWrite where
  | inject (cmd : String)
  | postReady (cmd : String)
deriving DecidableEq, Repr

/-- The supervisor's loop-carried state: the five readiness flags and the
record of stdin writes. -/
structure GuestState where
  sawShellHint : Bool
  injectedReady : Bool
  observedReady : Bool
  sentPostReady : Bool
  observedPostReady : Bool
  stdinWrites : List StdinWrite
deriving DecidableEq, Repr

/-- State at loop entry. -/
def initGuest : GuestState :=
  { sawShellHint := false, injectedReady := false, observedReady := false,
    sentPostReady := false, observedPostReady := false, stdinWrites := [] }

/-- The apostrophe character, referenced by code point. -/
def apos : Char := Char.ofNat 39

/-- First busybox shell hint substring. -/
def hint1 : String := "job control turned off"

/-- Second busybox shell hint substring. -/
def hint2 : String := "can" ++ String.mk [apos] ++ "t access tty"

/-- Third busybox shell hint substring (the second followed by the first). -/
def hint3 : String := hint2 ++ "; " ++ hint1

/-- The shell hint test of the read loop: any of the three substrings. -/
def hintIn (line : String) : Bool :=
  substrB hint1 line || substrB hint2 line || substrB hint3 line

/-- The once-only marker injection at the bottom of the loop body. -/
def injectStep (cfg : GuestConfig) (st : GuestState) : GuestState :=
  if cfg.injectReadyMarker && st.sawShellHint && !st.injectedReady then
    { st with stdinWrites := st.stdinWrites ++ [StdinWrite.inject ("echo " ++ cfg.readyMarker ++ "\n")],
              injectedReady := true }
  else st

/-- The once-only post-ready send at the bottom of the loop body. -/
def postReadyStep (cfg : GuestConfig) (st : GuestState) : GuestState :=
  if st.observedReady && cfg.postReadySend != "" && !st.sentPostReady then
    { st with stdinWrites := st.stdinWrites ++ [StdinWrite.postReady cfg.postReadySend],
              sentPostReady := true }
  else st

/-- One loop iteration that read a line: hint detection, ready-marker
detection with an immediate success return when no post-ready send is
configured, post-ready-expect detection with an immediate success return,
and otherwise the two stdin write steps. The some result is the return
value of run_guest on early return. -/
def lineStep (cfg : GuestConfig) (st : GuestState) (line : String) : GuestState × Option Int :=
  let st := if hintIn line then { st with sawShellHint := true } else st
  let st := if substrB cfg.readyMarker line then { st with observedReady := true } else st
  if substrB cfg.readyMarker line && cfg.postReadySend == "" then (st, some 0)
  else if cfg.postReadyExpect != "" && substrB cfg.postReadyExpect line then
    ({ st with observedPostReady := true }, some 0)
  else
    (postReadyStep cfg (injectStep cfg st), none)

/-- The read loop over the child's output lines, with the child's exit code
(when it exits on its own) observed after its output is consumed: the final
iteration still runs the two stdin write steps, then the poll check returns
the child's return code with a Python or-with-1 coercion. A none result
models a loop that has not returned within the given observations. -/
def runGuest (cfg : GuestConfig) (st : GuestState) :
    List String → Option Int → Option Int × GuestState
  | [], none => (none, st)
  | [], some rc =>
    let st := postReadyStep cfg (injectStep cfg st)
    (some (if rc = 0 then 1 else rc), st)
  | l :: ls, exitc =>
    match lineStep cfg st l with
    | (st2, some r) => (some r, st2)
    | (st2, none) => runGuest cfg st2 ls exitc

/-! ## Predicates used to state the properties -/

/-- Number of marker-injection commands among the recorded stdin writes. -/
def injectCount (ws : List StdinWrite) : Nat :=
  (ws.filter (fun w => match w with | StdinWrite.inject _ => true | StdinWrite.postReady _ => false)).length

/-- Number of post-ready commands among the recorded stdin writes. -/
def postCount (ws : List StdinWrite) : Nat :=
  (ws.filter (fun w => match w with | StdinWrite.inject _ => false | StdinWrite.postReady _ => true)).length

/-- Write counts are bounded by the corresponding once-only flags. -/
def writesBound (st : GuestState) : Prop :=
  injectCount st.stdinWrites ≤ (if st.injectedReady then 1 else 0) ∧
  postCount st.stdinWrites ≤ (if st.sentPostReady then 1 else 0)

/-- Invariant holding whenever control is at the top of the read loop: the
write steps at the bottom of the body have caught up with the flags set
during line processing, because every early return ends the loop. -/
def loopInv (cfg : GuestConfig) (st : GuestState) : Prop :=
  (cfg.injectReadyMarker = true → st.sawShellHint = true → st.injectedReady = true) ∧
  (st.observedReady = true → cfg.postReadySend ≠ "" → st.sentPostReady = true)

/-- All surface ids stored in the registry parse as Python ints, so the
registry writer's sort key computation cannot raise. -/
def renderOk (st : BridgeState) : Bool := st.surfaces.all (fun p => intOk p.1)

/-- The open frame's surface id, when a frame is open, parses as a Python
int (a flush would insert it into the surfaces map). -/
def currentKeyOk (st : BridgeState) : Bool :=
  match st.current_key with
  | some k => intOk k.surface_id
  | none => true

/-- Bridge state whose stored ids are all decimal integer strings. -/
def stateOk (st : BridgeState) : Bool := renderOk st && currentKeyOk st

/-- A key, when present on the line, has a value parsing as a Python int. -/
def kvIntOk (kv : List (String × String)) (k : String) : Bool :=
  match dGet? kv k with
  | some v => intOk v
  | none => true

/-- The seq value, defaulting to 0 when absent, parses as a Python int. -/
def kvSeqOk (kv : List (String × String)) : Bool := intOk ((dGet? kv "seq").getD "0")

/-- A key, when present and nonempty on the line, is a decimal int string. -/
def idOkNE (kv : List (String × String)) (k : String) : Bool :=
  match getNE kv k with
  | some s => intOk s
  | none => true

/-- Lines whose surface ids are decimal integer strings and whose numeric
w, h, x, y and seq values parse as Python ints, so that no int() call made
while processing the line can raise. -/
def lineOk (line0 : String) : Bool :=
  let line := rstripNL line0
  match tagTail? "CREATE" line with
  | some t =>
    let kv := parseKvTail t
    idOkNE kv "id" && kvIntOk kv "w" && kvIntOk kv "h"
  | none =>
  match tagTail? "ROLE" line with
  | some t => idOkNE (parseKvTail t) "id"
  | none =>
  match tagTail? "PARENT" line with
  | some t => idOkNE (parseKvTail t) "id" && idOkNE (parseKvTail t) "parent"
  | none =>
  match tagTail? "STATE" line with
  | some t => idOkNE (parseKvTail t) "id"
  | none =>
  match tagTail? "FOCUS" line with
  | some t => idOkNE (parseKvTail t) "id"
  | none =>
  match tagTail? "CONFIGURE" line with
  | some t =>
    let kv := parseKvTail t
    idOkNE kv "id" && kvIntOk kv "x" && kvIntOk kv "y" && kvIntOk kv "w" && kvIntOk kv "h"
  | none =>
  match tagTail? "DESTROY" line with
  | some _ => true
  | none =>
  match tagTail? "FRAME_BEGIN" line with
  | some t => idOkNE (parseKvTail t) "id" && kvSeqOk (parseKvTail t)
  | none =>
  match tagTail? "FRAME_END" line with
  | some t => kvSeqOk (parseKvTail t)
  | none => true

/-- The artifact a flush of frame key k with the given content lines
produces: joined with newlines plus a trailing newline, hashed. -/
def artifactOf (k : FrameKey) (lines : List String) : Artifact :=
  { surface_id := k.surface_id, seq := k.seq,
    content := String.intercalate "\n" lines ++ "\n",
    sha := sha256hex (String.intercalate "\n" lines ++ "\n") }

/-- Whether the persisted registry snapshot has a surface entry for an id. -/
def registryHasSurface (g : Option Registry) (sid : String) : Bool :=
  match g with
  | some r => dContains r.surfaces sid
  | none => false

/-- A line matching none of the nine tag regexes. -/
def unmatchedLine (line0 : String) : Bool :=
  let line := rstripNL line0
  (tagTail? "CREATE" line).isNone && (tagTail? "ROLE" line).isNone &&
  (tagTail? "PARENT" line).isNone && (tagTail? "STATE" line).isNone &&
  (tagTail? "FOCUS" line).isNone && (tagTail? "CONFIGURE" line).isNone &&
  (tagTail? "DESTROY" line).isNone && (tagTail? "FRAME_BEGIN" line).isNone &&
  (tagTail? "FRAME_END" line).isNone

/-! ## Supervisor lemmas -/

theorem injectCount_append_inject (ws : List StdinWrite) (c : String) :
    injectCount (ws ++ [StdinWrite.inject c]) = injectCount ws + 1 := by
  simp [injectCount]

theorem injectCount_append_post (ws : List StdinWrite) (c : String) :
    injectCount (ws ++ [StdinWrite.postReady c]) = injectCount ws := by
  simp [injectCount]

theorem postCount_append_inject (ws : List StdinWrite) (c : String) :
    postCount (ws ++ [StdinWrite.inject c]) = postCount ws := by
  simp [postCount]

theorem postCount_append_post (ws : List StdinWrite) (c : String) :
    postCount (ws ++ [StdinWrite.postReady c]) = postCount ws + 1 := by
  simp [postCount]

theorem writesBound_fields {st st2 : GuestState}
    (hw : st2.stdinWrites = st.stdinWrites) (hi : st2.injectedReady = st.injectedReady)
    (hs : st2.sentPostReady = st.sentPostReady) (h : writesBound st) : writesBound st2 := by
  unfold writesBound at h ⊢
  rw [hw, hi, hs]
  exact h

theorem writesBound_injectStep (cfg : GuestConfig) (st : GuestState) (h : writesBound st) :
    writesBound (injectStep cfg st) := by
  obtain ⟨h1, h2⟩ := h
  unfold injectStep
  split
  · rename_i hc
    simp only [Bool.and_eq_true, Bool.not_eq_true'] at hc
    rw [hc.2] at h1
    simp only [Bool.false_eq_true, if_false, Nat.le_zero] at h1
    constructor
    · dsimp only
      rw [injectCount_append_inject, h1]
      decide
    · dsimp only
      rw [postCount_append_inject]
      exact h2
  · exact ⟨h1, h2⟩

theorem writesBound_postReadyStep (cfg : GuestConfig) (st : GuestState) (h : writesBound st) :
    writesBound (postReadyStep cfg st) := by
  obtain ⟨h1, h2⟩ := h
  unfold postReadyStep
  split
  · rename_i hc
    simp only [Bool.and_eq_true, Bool.not_eq_true'] at hc
    rw [hc.2] at h2
    simp only [Bool.false_eq_true, if_false, Nat.le_zero] at h2
    constructor
    · dsimp only
      rw [injectCount_append_post]
      exact h1
    · dsimp only
      rw [postCount_append_post, h2]
      decide
  · exact ⟨h1, h2⟩

theorem writesBound_lineStep (cfg : GuestConfig) (st : GuestState) (line : String)
    (h : writesBound st) : writesBound (lineStep cfg st line).1 := by
  have hB : writesBound (if substrB cfg.readyMarker line then
      { (if hintIn line then { st with sawShellHint := true } else st) with observedReady := true }
      else (if hintIn line then { st with sawShellHint := true } else st)) := by
    split
    · split
      · exact writesBound_fields rfl rfl rfl h
      · exact writesBound_fields rfl rfl rfl h
    · split
      · exact writesBound_fields rfl rfl rfl h
      · exact h
  simp only [lineStep]
  split
  · exact hB
  · split
    · exact writesBound_fields rfl rfl rfl hB
    · exact writesBound_postReadyStep _ _ (writesBound_injectStep _ _ hB)

theorem writesBound_runGuest (cfg : GuestConfig) (lines : List String) (exitc : Option Int)
    (st : GuestState) (h : writesBound st) : writesBound (runGuest cfg st lines exitc).2 := by
  induction lines generalizing st with
  | nil =>
    cases exitc with
    | none => exact h
    | some rc => exact writesBound_postReadyStep _ _ (writesBound_injectStep _ _ h)
  | cons l ls ih =>
    rw [runGuest]
    cases hs : lineStep cfg st l with
    | mk st2 r =>
      have h2 : writesBound st2 := by
        have hb := writesBound_lineStep cfg st l h
        rw [hs] at hb
        exact hb
      cases r with
      | some v => exact h2
      | none => exact ih st2 h2

theorem GuestState.set_observedReady_self (st : GuestState) (h : st.observedReady = true) :
    { st with observedReady := true } = st := by
  cases st
  simp_all

theorem injectStep_noop (cfg : GuestConfig) (st : GuestState)
    (hinv : cfg.injectReadyMarker = true → st.sawShellHint = true → st.injectedReady = true) :
    injectStep cfg st = st := by
  unfold injectStep
  split
  · rename_i hc
    simp only [Bool.and_eq_true, Bool.not_eq_true'] at hc
    obtain ⟨⟨hm, hs⟩, hf⟩ := hc
    rw [hinv hm hs] at hf
    cases hf
  · rfl

theorem postReadyStep_noop (cfg : GuestConfig) (st : GuestState)
    (hinv : st.observedReady = true → cfg.postReadySend ≠ "" → st.sentPostReady = true)
    (hr : st.observedReady = true) : postReadyStep cfg st = st := by
  unfold postReadyStep
  split
  · rename_i hc
    simp only [Bool.and_eq_true, Bool.not_eq_true', bne_iff_ne] at hc
    obtain ⟨⟨-, hne⟩, hf⟩ := hc
    rw [hinv hr hne] at hf
    cases hf
  · rfl

theorem lineStep_after_ready (cfg : GuestConfig) (st : GuestState) (line : String)
    (hinv : loopInv cfg st) (hr : st.observedReady = true) (hh : hintIn line = false)
    (hm : substrB cfg.readyMarker line = true)
    (he : cfg.postReadyExpect = "" ∨ substrB cfg.postReadyExpect line = false) :
    lineStep cfg st line = (st, if cfg.postReadySend = "" then some 0 else none) := by
  obtain ⟨hinv1, hinv2⟩ := hinv
  simp only [lineStep, hh, hm, Bool.false_eq_true, if_false, if_true,
    GuestState.set_observedReady_self st hr]
  by_cases hsend : cfg.postReadySend = ""
  · simp [hsend]
  · have hbne : (cfg.postReadySend == "") = false := by
      simp [hsend]
    simp only [hbne, Bool.and_false, Bool.false_eq_true, if_false, hsend]
    have hexp : (cfg.postReadyExpect != "" && substrB cfg.postReadyExpect line) = false := by
      rcases he with he | he
      · simp [he]
      · simp [he]
    simp only [hexp, Bool.false_eq_true, if_false, if_neg hsend]
    rw [injectStep_noop cfg st hinv1, postReadyStep_noop cfg st hinv2 hr]

/-! ## Supervisor claims -/

/-- C1 (counterexample): a child that exits on its own with exit code 0
before any success condition is observed makes run_guest return 1, not the
child's own exit code 0, because of the or-with-1 coercion at the poll
check. -/
theorem runGuest_early_exit_zero_cex :
    (runGuest { readyMarker := MARKER, injectReadyMarker := defaultInjectReadyMarker MARKER,
                postReadySend := "", postReadyExpect := "" }
       initGuest ["hello"] (some 0)).1 = some 1 ∧
    ¬ ((runGuest { readyMarker := MARKER, injectReadyMarker := defaultInjectReadyMarker MARKER,
                   postReadySend := "", postReadyExpect := "" }
          initGuest ["hello"] (some 0)).1 = some 0) := by
  decide

/-- C1 (amended): if the child exits on its own before any success condition
was observed over the read lines, run_guest returns the child's own exit
code when that code is nonzero, and returns 1 when the child exited with
code 0 (the source computes returncode or 1). -/
theorem runGuest_early_exit_code (cfg : GuestConfig) (st : GuestState)
    (lines : List String) (rc : Int)
    (h : (runGuest cfg st lines none).1 = none) :
    (runGuest cfg st lines (some rc)).1 = some (if rc = 0 then 1 else rc) := by
  induction lines generalizing st with
  | nil => simp [runGuest]
  | cons l ls ih =>
    rw [runGuest] at h ⊢
    cases hs : lineStep cfg st l with
    | mk st2 r =>
      rw [hs] at h
      cases r with
      | some v => simp at h
      | none => exact ih st2 h

/-- C1 (witness): concrete early exit with nonzero code 7 yields 7. -/
theorem runGuest_early_exit_code_witness :
    (runGuest { readyMarker := MARKER, injectReadyMarker := defaultInjectReadyMarker MARKER,
                postReadySend := "", postReadyExpect := "" }
       initGuest ["hello"] (some 7)).1 = some (if (7 : Int) = 0 then 1 else 7) :=
  runGuest_early_exit_code _ _ _ _ (by decide)

/-- C7 (counterexample): in the run the claim describes, configured only with
marker RAYOS_READY, the injection switch takes its default, which is off
because the marker differs from the built-in constant; the run still returns
success 0 on the marker line, but zero injection commands are written, not
exactly one. -/
theorem readiness_scenario_default_cex :
    defaultInjectReadyMarker "RAYOS_READY" = false ∧
    (runGuest { readyMarker := "RAYOS_READY",
                injectReadyMarker := defaultInjectReadyMarker "RAYOS_READY",
                postReadySend := "", postReadyExpect := "" }
       initGuest ["sh: job control turned off", "...", "RAYOS_READY"] none).1 = some 0 ∧
    ((runGuest { readyMarker := "RAYOS_READY",
                 injectReadyMarker := defaultInjectReadyMarker "RAYOS_READY",
                 postReadySend := "", postReadyExpect := "" }
        initGuest ["sh: job control turned off", "...", "RAYOS_READY"] none).2).stdinWrites.length = 0 := by
  decide

/-- C7 (amended): in the readiness run with marker RAYOS_READY, the given
input lines and no post-ready step, run_guest returns success 0 at the
marker line with the post-ready send flag still unset; exactly one injection
command is recorded when the injection switch is enabled explicitly, and
none under its default for this marker (the default enables injection only
for the built-in marker constant). -/
theorem readiness_scenario_run :
    (runGuest { readyMarker := "RAYOS_READY", injectReadyMarker := true,
                postReadySend := "", postReadyExpect := "" }
       initGuest ["sh: job control turned off", "...", "RAYOS_READY"] none) =
      (some 0,
       { sawShellHint := true, injectedReady := true, observedReady := true,
         sentPostReady := false, observedPostReady := false,
         stdinWrites := [StdinWrite.inject "echo RAYOS_READY\n"] }) ∧
    ((runGuest { readyMarker := "RAYOS_READY",
                 injectReadyMarker := defaultInjectReadyMarker "RAYOS_READY",
                 postReadySend := "", postReadyExpect := "" }
        initGuest ["sh: job control turned off", "...", "RAYOS_READY"] none)).2.stdinWrites = [] := by
  decide

/-- C9: over any run of the read loop the marker-injection command is
written at most once and the post-ready command at most once; and a line
re-observing the ready marker after readiness (at a loop-top state, with no
shell hint or post-ready expectation on the line) leaves the supervisor
state exactly unchanged, returning success when no post-ready send is
configured and continuing otherwise. -/
theorem injection_idempotence :
    (∀ (cfg : GuestConfig) (lines : List String) (exitc : Option Int),
        injectCount ((runGuest cfg initGuest lines exitc).2).stdinWrites ≤ 1 ∧
        postCount ((runGuest cfg initGuest lines exitc).2).stdinWrites ≤ 1) ∧
    (∀ (cfg : GuestConfig) (st : GuestState) (line : String),
        loopInv cfg st → st.observedReady = true → hintIn line = false →
        substrB cfg.readyMarker line = true →
        (cfg.postReadyExpect = "" ∨ substrB cfg.postReadyExpect line = false) →
        lineStep cfg st line = (st, if cfg.postReadySend = "" then some 0 else none)) := by
  constructor
  · intro cfg lines exitc
    have h0 : writesBound initGuest := by
      constructor <;> simp [initGuest, injectCount, postCount]
    have h := writesBound_runGuest cfg lines exitc initGuest h0
    obtain ⟨h1, h2⟩ := h
    constructor
    · refine le_trans h1 ?_
      split <;> omega
    · refine le_trans h2 ?_
      split <;> omega
  · intro cfg st line hinv hr hh hm he
    exact lineStep_after_ready cfg st line hinv hr hh hm he

/-- C9 (witness): the at-most-once bounds on a concrete run, and the
unchanged-state step on a concrete post-ready state. -/
theorem injection_idempotence_witness :
    (injectCount ((runGuest { readyMarker := MARKER, injectReadyMarker := true,
                              postReadySend := "", postReadyExpect := "" }
        initGuest ["sh: job control turned off", MARKER] none).2).stdinWrites ≤ 1 ∧
     postCount ((runGuest { readyMarker := MARKER, injectReadyMarker := true,
                            postReadySend := "", postReadyExpect := "" }
        initGuest ["sh: job control turned off", MARKER] none).2).stdinWrites ≤ 1) ∧
    lineStep { readyMarker := MARKER, injectReadyMarker := true,
               postReadySend := "", postReadyExpect := "" }
        { initGuest with observedReady := true } MARKER =
      ({ initGuest with observedReady := true }, some 0) := by
  constructor
  · exact injection_idempotence.1 _ _ _
  · have h := injection_idempotence.2
      { readyMarker := MARKER, injectReadyMarker := true,
        postReadySend := "", postReadyExpect := "" }
      { initGuest with observedReady := true } MARKER
      (by constructor <;> simp [initGuest]) (by rfl) (by decide) (by decide)
      (Or.inl rfl)
    simpa using h

/-! ## Bridge lemmas: dictionaries and the registry writer -/

theorem dGet?_dSet_self {α : Type} (m : List (String × α)) (k : String) (v : α) :
    dGet? (dSet m k v) k = some v := by
  induction m with
  | nil => simp [dSet, dGet?]
  | cons p rest ih =>
    obtain ⟨k2, v2⟩ := p
    by_cases hk : k2 = k
    · simp [dSet, dGet?, hk]
    · simp only [dSet, hk, if_false, dGet?]
      exact ih

theorem dContains_of_dGet? {α : Type} {m : List (String × α)} {k : String} {v : α}
    (h : dGet? m k = some v) : dContains m k = true := by
  unfold dContains
  rw [h]
  rfl

theorem dContains_eq_false {α : Type} {m : List (String × α)} {k : String}
    (h : dGet? m k = none) : dContains m k = false := by
  unfold dContains
  rw [h]
  rfl

theorem dSet_all {α : Type} (P : String → Bool) (m : List (String × α)) (k : String) (v : α)
    (hm : m.all (fun p => P p.1) = true) (hk : P k = true) :
    (dSet m k v).all (fun p => P p.1) = true := by
  induction m with
  | nil => simp [dSet, hk]
  | cons p rest ih =>
    obtain ⟨k2, v2⟩ := p
    simp only [List.all_cons, Bool.and_eq_true] at hm
    by_cases h2 : k2 = k
    · simp [dSet, h2, hk, hm.2]
    · simp only [dSet, h2, if_false, List.all_cons, Bool.and_eq_true]
      exact ⟨hm.1, ih hm.2⟩

theorem dPop_all {α : Type} (P : String → Bool) (m : List (String × α)) (k : String)
    (hm : m.all (fun p => P p.1) = true) :
    (dPop m k).all (fun p => P p.1) = true := by
  induction m with
  | nil => simp [dPop]
  | cons p rest ih =>
    obtain ⟨k2, v2⟩ := p
    simp only [List.all_cons, Bool.and_eq_true] at hm
    by_cases h2 : k2 = k
    · simp [dPop, h2, hm.2]
    · simp only [dPop, h2, if_false, List.all_cons, Bool.and_eq_true]
      exact ⟨hm.1, ih hm.2⟩

theorem surfaceSortKeys?_isSome (l : List (String × SurfaceInfo))
    (h : l.all (fun p => intOk p.1) = true) : (surfaceSortKeys? l).isSome = true := by
  induction l with
  | nil => rfl
  | cons p rest ih =>
    simp only [List.all_cons, Bool.and_eq_true] at h
    have h1 := h.1
    unfold intOk at h1
    cases hp : pyInt? p.1 with
    | none => rw [hp] at h1; simp at h1
    | some n =>
      have h2 := ih h.2
      cases hr : surfaceSortKeys? rest with
      | none => rw [hr] at h2; simp at h2
      | some l2 =>
        unfold surfaceSortKeys?
        rw [hp, hr]
        rfl

theorem renderRegistry_ok (st : BridgeState) (h : renderOk st = true) :
    ∃ r, renderRegistry st = Except.ok r := by
  unfold renderOk at h
  have hs := surfaceSortKeys?_isSome st.surfaces h
  unfold renderRegistry
  cases hq : surfaceSortKeys? st.surfaces with
  | none => rw [hq] at hs; simp at hs
  | some dec => exact ⟨_, rfl⟩

theorem writeRegistry_no_error (st : BridgeState) (h : renderOk st = true) :
    (writeRegistry st).2 = none := by
  obtain ⟨r, hr⟩ := renderRegistry_ok st h
  unfold writeRegistry
  rw [hr]

theorem writeRegistry_surfaces (st : BridgeState) :
    (writeRegistry st).1.surfaces = st.surfaces := by
  unfold writeRegistry
  split <;> rfl

theorem writeRegistry_z_order (st : BridgeState) :
    (writeRegistry st).1.z_order = st.z_order := by
  unfold writeRegistry
  split <;> rfl

theorem writeRegistry_current_key (st : BridgeState) :
    (writeRegistry st).1.current_key = st.current_key := by
  unfold writeRegistry
  split <;> rfl

theorem writeRegistry_current_lines (st : BridgeState) :
    (writeRegistry st).1.current_lines = st.current_lines := by
  unfold writeRegistry
  split <;> rfl

theorem writeRegistry_frames (st : BridgeState) :
    (writeRegistry st).1.frames_written = st.frames_written := by
  unfold writeRegistry
  split <;> rfl

theorem renderOk_set (st : BridgeState) (sid : String) (info : SurfaceInfo)
    (h : renderOk st = true) (hs : intOk sid = true) :
    (dSet st.surfaces sid info).all (fun p => intOk p.1) = true :=
  dSet_all _ _ _ _ h hs

theorem mem_zAppend (z : List String) (w : String) : w ∈ zAppendIfMissing z w := by
  unfold zAppendIfMissing
  split
  · assumption
  · exact List.mem_append_right z (List.mem_singleton.mpr rfl)

theorem mem_zAppend_mono (z : List String) (w w2 : String) (h : w ∈ z) :
    w ∈ zAppendIfMissing z w2 := by
  unfold zAppendIfMissing
  split
  · exact h
  · exact List.mem_append_left _ h

theorem dGet?_eq_none_of_not_contains {α : Type} {m : List (String × α)} {k : String}
    (h : dContains m k = false) : dGet? m k = none := by
  unfold dContains at h
  cases hg : dGet? m k with
  | none => rfl
  | some v => rw [hg] at h; simp at h

theorem ensure_all (st : BridgeState) (sid : String) (h : renderOk st = true)
    (hs : intOk sid = true) :
    (ensureSurfaceZ st sid).surfaces.all (fun p => intOk p.1) = true := by
  unfold ensureSurfaceZ
  split
  · exact h
  · exact dSet_all _ _ _ _ h hs

/-! ## Bridge lemmas: the flush path -/

theorem flushCurrent_of_none (st : BridgeState) (b : Bool) (h : st.current_key = none) :
    flushCurrent st b = (st, none) := by
  unfold flushCurrent
  rw [h]

theorem flushCurrent_key_none (st : BridgeState) (b : Bool) :
    (flushCurrent st b).1.current_key = none := by
  simp only [flushCurrent]
  split
  · rename_i heq
    exact heq
  · split
    · rfl
    · rw [writeRegistry_current_key]
      split <;> rfl

theorem flushCurrent_empty (st : BridgeState) (k : FrameKey)
    (hk : st.current_key = some k) (hl : st.current_lines = []) :
    flushCurrent st false = ({ st with current_key := none, current_lines := [] }, none) := by
  simp [flushCurrent, hk, hl]

theorem flushCurrent_no_error (st : BridgeState) (b : Bool) (h : stateOk st = true) :
    (flushCurrent st b).2 = none := by
  unfold stateOk at h
  simp only [Bool.and_eq_true] at h
  obtain ⟨hr, hc⟩ := h
  simp only [flushCurrent]
  split
  · rfl
  · rename_i k heq
    unfold currentKeyOk at hc
    rw [heq] at hc
    split
    · rfl
    · apply writeRegistry_no_error
      unfold renderOk
      split
    -- the two branches of the get-or-insert on the frame's surface id
      · exact dSet_all _ _ _ _ hr hc
      · exact dSet_all _ _ _ _ (dSet_all _ _ _ _ hr hc) hc

theorem flushCurrent_flush (st : BridgeState) (k : FrameKey) (b : Bool)
    (hk : st.current_key = some k)
    (hcond : (st.current_lines.isEmpty && !b) = false) :
    (flushCurrent st b).1.frames_written = st.frames_written ++ [artifactOf k st.current_lines] ∧
    dGet? (flushCurrent st b).1.surfaces k.surface_id =
      some { (dGet? st.surfaces k.surface_id).getD (newInfo k.surface_id) with
             latest_seq := some k.seq,
             latest_sha256 := some (sha256hex (String.intercalate "\n" st.current_lines ++ "\n")),
             latest_path := some ("frames/surface-" ++ k.surface_id ++ "-seq-" ++
               toString k.seq ++ ".ppm") } := by
  simp only [flushCurrent, hk]
  simp only [hcond, Bool.false_eq_true, if_false]
  constructor
  · rw [writeRegistry_frames]
    split
    · rfl
    · rfl
  · rw [writeRegistry_surfaces]
    split
    · rename_i hcont
      rw [dGet?_dSet_self]
    · rename_i hcont
      simp only [Bool.not_eq_true] at hcont
      rw [dGet?_dSet_self, dGet?_dSet_self,
        dGet?_eq_none_of_not_contains hcont]
      rfl

/-! ## Bridge lemmas: no exception on well-formed lines -/

theorem updIntField_not_error (cur : Option Int) (kv : List (String × String)) (k : String)
    (e : String) (h : kvIntOk kv k = true) : updIntField cur kv k ≠ Except.error e := by
  unfold kvIntOk at h
  unfold updIntField
  cases hg : dGet? kv k with
  | none => simp
  | some s =>
    rw [hg] at h
    dsimp only at h ⊢
    unfold intOk at h
    cases hp : pyInt? s with
    | none => rw [hp] at h; simp at h
    | some n => simp

theorem updIntField_ok_val (cur : Option Int) (kv : List (String × String)) (k : String)
    (v : Option Int) (h : updIntField cur kv k = Except.ok v) :
    v = (match dGet? kv k with | some s => pyInt? s | none => cur) := by
  unfold updIntField at h
  cases hg : dGet? kv k with
  | none =>
    rw [hg] at h
    dsimp only at h ⊢
    simp only [Except.ok.injEq] at h
    exact h.symm
  | some s =>
    rw [hg] at h
    dsimp only at h ⊢
    cases hp : pyInt? s with
    | none => rw [hp] at h; simp at h
    | some n =>
      simp only [hp, Except.ok.injEq] at h
      exact h.symm

theorem handleCreate_ok (st : BridgeState) (kv : List (String × String))
    (h : renderOk st = true) (hid : idOkNE kv "id" = true)
    (hw : kvIntOk kv "w" = true) (hh2 : kvIntOk kv "h" = true) :
    (handleCreate st kv).2 = none := by
  unfold handleCreate
  cases hg : getNE kv "id" with
  | none => rfl
  | some sid =>
    dsimp only
    unfold idOkNE at hid
    rw [hg] at hid
    split
    · rename_i e heq
      exact absurd heq (updIntField_not_error _ _ _ _ hw)
    · split
      · rename_i e heq
        exact absurd heq (updIntField_not_error _ _ _ _ hh2)
      · apply writeRegistry_no_error
        unfold renderOk
        exact dSet_all _ _ _ _ (ensure_all st sid h hid) hid

theorem handleRole_ok (st : BridgeState) (kv : List (String × String))
    (h : renderOk st = true) (hid : idOkNE kv "id" = true) :
    (handleRole st kv).2 = none := by
  unfold handleRole
  cases hg : getNE kv "id" with
  | none => rfl
  | some sid =>
    dsimp only
    unfold idOkNE at hid
    rw [hg] at hid
    apply writeRegistry_no_error
    unfold renderOk
    exact dSet_all _ _ _ _ (ensure_all st sid h hid) hid

theorem handleParent_ok (st : BridgeState) (kv : List (String × String))
    (h : renderOk st = true) (hid : idOkNE kv "id" = true) (hpar : idOkNE kv "parent" = true) :
    (handleParent st kv).2 = none := by
  unfold handleParent
  cases hg : getNE kv "id" with
  | none => rfl
  | some sid =>
    cases hg2 : getNE kv "parent" with
    | none => rfl
    | some parent =>
      dsimp only
      unfold idOkNE at hid hpar
      rw [hg] at hid
      rw [hg2] at hpar
      apply writeRegistry_no_error
      unfold renderOk
      exact dSet_all _ _ _ _ (ensure_all (ensureSurfaceZ st sid) parent
        (ensure_all st sid h hid) hpar) hid

theorem handleState_ok (st : BridgeState) (kv : List (String × String))
    (h : renderOk st = true) (hid : idOkNE kv "id" = true) :
    (handleState st kv).2 = none := by
  unfold handleState
  cases hg : getNE kv "id" with
  | none => rfl
  | some sid =>
    dsimp only
    unfold idOkNE at hid
    rw [hg] at hid
    apply writeRegistry_no_error
    unfold renderOk
    exact dSet_all _ _ _ _ (ensure_all st sid h hid) hid

theorem handleFocus_ok (st : BridgeState) (kv : List (String × String))
    (h : renderOk st = true) (hid : idOkNE kv "id" = true) :
    (handleFocus st kv).2 = none := by
  unfold handleFocus
  cases hg : getNE kv "id" with
  | none => rfl
  | some sid =>
    dsimp only
    unfold idOkNE at hid
    rw [hg] at hid
    split <;>
      (apply writeRegistry_no_error
       unfold renderOk
       repeat' split
       all_goals
         first
           | exact dSet_all _ _ _ _ h hid
           | exact dSet_all _ _ _ _ (dSet_all _ _ _ _ h hid) hid)

theorem handleConfigure_ok (st : BridgeState) (kv : List (String × String))
    (h : renderOk st = true) (hid : idOkNE kv "id" = true)
    (hx : kvIntOk kv "x" = true) (hy : kvIntOk kv "y" = true)
    (hw : kvIntOk kv "w" = true) (hh2 : kvIntOk kv "h" = true) :
    (handleConfigure st kv).2 = none := by
  unfold handleConfigure
  cases hg : getNE kv "id" with
  | none => rfl
  | some sid =>
    dsimp only
    unfold idOkNE at hid
    rw [hg] at hid
    split
    · rename_i e heq
      exact absurd heq (updIntField_not_error _ _ _ _ hx)
    · split
      · rename_i e heq
        exact absurd heq (updIntField_not_error _ _ _ _ hy)
      · split
        · rename_i e heq
          exact absurd heq (updIntField_not_error _ _ _ _ hw)
        · split
          · rename_i e heq
            exact absurd heq (updIntField_not_error _ _ _ _ hh2)
          · apply writeRegistry_no_error
            unfold renderOk
            split
            · exact dSet_all _ _ _ _ h hid
            · exact dSet_all _ _ _ _ (dSet_all _ _ _ _ h hid) hid

theorem handleDestroy_ok (st : BridgeState) (kv : List (String × String))
    (h : renderOk st = true) :
    (handleDestroy st kv).2 = none := by
  unfold handleDestroy
  cases hg : getNE kv "id" with
  | none => rfl
  | some sid =>
    dsimp only
    repeat' split
    all_goals apply writeRegistry_no_error
    all_goals unfold renderOk
    all_goals
      first
        | exact h
        | exact dPop_all _ _ _ h

theorem handleFrameBegin_ok (st : BridgeState) (kv : List (String × String))
    (h : stateOk st = true) (hseq : kvSeqOk kv = true) :
    (handleFrameBegin st kv).2 = none := by
  unfold handleFrameBegin
  have hf := flushCurrent_no_error st false h
  split
  · rename_i s2 e heq
    rw [heq] at hf
    simp at hf
  · rename_i s2 heq
    cases hg : getNE kv "id" with
    | none => rfl
    | some sid =>
      unfold kvSeqOk at hseq
      unfold intOk at hseq
      cases hp : pyInt? ((dGet? kv "seq").getD "0") with
      | none => rw [hp] at hseq; simp at hseq
      | some n => rfl

theorem handleFrameEnd_ok (st : BridgeState) (kv : List (String × String))
    (h : stateOk st = true) (hseq : kvSeqOk kv = true) :
    (handleFrameEnd st kv).2 = none := by
  unfold handleFrameEnd
  unfold kvSeqOk at hseq
  unfold intOk at hseq
  cases hp : pyInt? ((dGet? kv "seq").getD "0") with
  | none => rw [hp] at hseq; simp at hseq
  | some n =>
    dsimp only
    cases hk : st.current_key with
    | none => rfl
    | some k =>
      dsimp only
      split
      · rfl
      · split
        · rfl
        · exact flushCurrent_no_error st false h

/-! ## Bridge claims -/

/-- C2 (counterexample): on_line raises ValueError on a CREATE line whose w
value is not a decimal integer (the int() call), and on a CREATE line whose
surface id is not a decimal integer string (the registry writer's sort key);
protocol errors of this kind abort the run rather than being ignored. -/
theorem onLine_raises_cex :
    ((onLine initBridge "RAYOS_LINUX_SURFACE_CREATE id=1 w=abc").2).isSome = true ∧
    ((onLine initBridge "RAYOS_LINUX_SURFACE_CREATE id=foo").2).isSome = true := by
  decide

/-- C2 (amended): on_line completes without raising on every input line whose
surface ids are decimal integer strings and whose w, h, x, y and seq values
parse as Python ints, given that all ids already stored in the bridge state
are decimal as well; malformed tokens, unknown keys and mismatched FRAME_END
lines are still recovered by ignoring the offending line or field. -/
theorem onLine_no_exception (st : BridgeState) (line : String)
    (hst : stateOk st = true) (hl : lineOk line = true) :
    (onLine st line).2 = none := by
  have hr : renderOk st = true := by
    unfold stateOk at hst
    simp only [Bool.and_eq_true] at hst
    exact hst.1
  simp only [onLine]
  simp only [lineOk] at hl
  cases h1 : tagTail? "CREATE" (rstripNL line) with
  | some t =>
    rw [h1] at hl
    dsimp only at hl ⊢
    simp only [Bool.and_eq_true] at hl
    exact handleCreate_ok st _ hr hl.1.1 hl.1.2 hl.2
  | none =>
    rw [h1] at hl
    dsimp only at hl ⊢
    cases h2 : tagTail? "ROLE" (rstripNL line) with
    | some t =>
      rw [h2] at hl
      dsimp only at hl ⊢
      exact handleRole_ok st _ hr hl
    | none =>
      rw [h2] at hl
      dsimp only at hl ⊢
      cases h3 : tagTail? "PARENT" (rstripNL line) with
      | some t =>
        rw [h3] at hl
        dsimp only at hl ⊢
        simp only [Bool.and_eq_true] at hl
        exact handleParent_ok st _ hr hl.1 hl.2
      | none =>
        rw [h3] at hl
        dsimp only at hl ⊢
        cases h4 : tagTail? "STATE" (rstripNL line) with
        | some t =>
          rw [h4] at hl
          dsimp only at hl ⊢
          exact handleState_ok st _ hr hl
        | none =>
          rw [h4] at hl
          dsimp only at hl ⊢
          cases h5 : tagTail? "FOCUS" (rstripNL line) with
          | some t =>
            rw [h5] at hl
            dsimp only at hl ⊢
            exact handleFocus_ok st _ hr hl
          | none =>
            rw [h5] at hl
            dsimp only at hl ⊢
            cases h6 : tagTail? "CONFIGURE" (rstripNL line) with
            | some t =>
              rw [h6] at hl
              dsimp only at hl ⊢
              simp only [Bool.and_eq_true] at hl
              exact handleConfigure_ok st _ hr hl.1.1.1.1 hl.1.1.1.2 hl.1.1.2 hl.1.2 hl.2
            | none =>
              rw [h6] at hl
              dsimp only at hl ⊢
              cases h7 : tagTail? "DESTROY" (rstripNL line) with
              | some t =>
                dsimp only
                exact handleDestroy_ok st _ hr
              | none =>
                rw [h7] at hl
                dsimp only at hl ⊢
                cases h8 : tagTail? "FRAME_BEGIN" (rstripNL line) with
                | some t =>
                  rw [h8] at hl
                  dsimp only at hl ⊢
                  simp only [Bool.and_eq_true] at hl
                  exact handleFrameBegin_ok st _ hst hl.2
                | none =>
                  rw [h8] at hl
                  dsimp only at hl ⊢
                  cases h9 : tagTail? "FRAME_END" (rstripNL line) with
                  | some t =>
                    rw [h9] at hl
                    dsimp only at hl ⊢
                    exact handleFrameEnd_ok st _ hst hl
                  | none =>
                    dsimp only
                    split <;> rfl

/-- C2 (witness): a well-formed CREATE line on the fresh bridge state. -/
theorem onLine_no_exception_witness :
    (onLine initBridge "RAYOS_LINUX_SURFACE_CREATE id=1 role=toplevel w=10 h=20").2 = none :=
  onLine_no_exception initBridge _ (by decide) (by decide)

/-- C3 (counterexample): closing a frame for a surface id never announced
still writes the content artifact, but afterwards both the in-memory map and
the persisted registry snapshot do contain a surface entry for that id,
without the id reappearing in any later protocol line. -/
theorem flush_unknown_surface_cex :
    (runLines initBridge ["RAYOS_LINUX_SURFACE_FRAME_BEGIN id=7 seq=0", "x",
        "RAYOS_LINUX_SURFACE_FRAME_END id=7 seq=0"]).2 = none ∧
    (runLines initBridge ["RAYOS_LINUX_SURFACE_FRAME_BEGIN id=7 seq=0", "x",
        "RAYOS_LINUX_SURFACE_FRAME_END id=7 seq=0"]).1.frames_written =
      [{ surface_id := "7", seq := 0, content := "x\n", sha := sha256hex "x\n" }] ∧
    dContains (runLines initBridge ["RAYOS_LINUX_SURFACE_FRAME_BEGIN id=7 seq=0", "x",
        "RAYOS_LINUX_SURFACE_FRAME_END id=7 seq=0"]).1.surfaces "7" = true ∧
    registryHasSurface (runLines initBridge ["RAYOS_LINUX_SURFACE_FRAME_BEGIN id=7 seq=0", "x",
        "RAYOS_LINUX_SURFACE_FRAME_END id=7 seq=0"]).1.registry "7" = true := by
  decide

/-- C3 (amended): flushing a frame whose surface id is not present in the
registry still writes the content artifact, and the flush re-creates a
surface entry for that id — carrying the derived window id and the new
latest-frame fields — so the registry contains an entry for the id
immediately afterwards. -/
theorem flushCurrent_unknown_surface (st : BridgeState) (k : FrameKey)
    (hk : st.current_key = some k) (hu : dGet? st.surfaces k.surface_id = none)
    (hl : st.current_lines ≠ []) :
    (flushCurrent st false).1.frames_written =
      st.frames_written ++ [artifactOf k st.current_lines] ∧
    dGet? (flushCurrent st false).1.surfaces k.surface_id =
      some { newInfo k.surface_id with
             latest_seq := some k.seq,
             latest_sha256 := some (sha256hex (String.intercalate "\n" st.current_lines ++ "\n")),
             latest_path := some ("frames/surface-" ++ k.surface_id ++ "-seq-" ++
               toString k.seq ++ ".ppm") } := by
  have hcond : (st.current_lines.isEmpty && !false) = false := by
    cases hcl : st.current_lines with
    | nil => exact absurd hcl hl
    | cons a l => rfl
  have hff := flushCurrent_flush st k false hk hcond
  rw [hu] at hff
  exact hff

/-- C3 (witness): flushing the open frame of an unknown surface id 7 leaves
a surface entry for 7. -/
theorem flushCurrent_unknown_surface_witness :
    dContains (flushCurrent (runLines initBridge
      ["RAYOS_LINUX_SURFACE_FRAME_BEGIN id=7 seq=0", "x"]).1 false).1.surfaces "7" = true := by
  have h := flushCurrent_unknown_surface (runLines initBridge
      ["RAYOS_LINUX_SURFACE_FRAME_BEGIN id=7 seq=0", "x"]).1 ⟨"7", 0⟩
      (by decide) (by decide) (by decide)
  exact dContains_of_dGet? h.2

/-- C4 (counterexample): re-creating surface 1 with a CREATE line carrying
only w clears role, title and format to None instead of keeping their stored
values; w is overwritten and h keeps its previous value. -/
theorem create_recreation_cex :
    dGet? (runLines initBridge
      ["RAYOS_LINUX_SURFACE_CREATE id=1 role=toplevel title=T format=argb w=10 h=20",
       "RAYOS_LINUX_SURFACE_CREATE id=1 w=30"]).1.surfaces "1" =
      some { surface_id := "1", role := none, title := none, format := none,
             w := some 30, h := some 20, window_id := some "win-1" } := by
  decide

/-- C4 (amended): on a CREATE line for an already-known id, w and h are
per-field last-write-wins (overwritten when the key is present, kept when
absent), while role, title and format are unconditionally replaced by the
line's values — cleared to None when the key is absent; all other stored
fields are kept. -/
theorem create_recreation_fields (st : BridgeState) (kv : List (String × String))
    (sid : String) (info : SurfaceInfo)
    (hg : getNE kv "id" = some sid) (hi : dGet? st.surfaces sid = some info)
    (hw : kvIntOk kv "w" = true) (hh2 : kvIntOk kv "h" = true) :
    dGet? (handleCreate st kv).1.surfaces sid =
      some { info with
             role := dGet? kv "role", title := dGet? kv "title", format := dGet? kv "format",
             w := (match dGet? kv "w" with | some v => pyInt? v | none => info.w),
             h := (match dGet? kv "h" with | some v => pyInt? v | none => info.h) } := by
  have hens : ensureSurfaceZ st sid = st := by
    unfold ensureSurfaceZ
    simp [dContains_of_dGet? hi]
  unfold handleCreate
  rw [hg]
  dsimp only
  rw [hens, hi]
  simp only [Option.getD_some]
  cases hwv : updIntField info.w kv "w" with
  | error e => exact absurd hwv (updIntField_not_error _ _ _ _ hw)
  | ok wv =>
    dsimp only
    cases hhv : updIntField info.h kv "h" with
    | error e => exact absurd hhv (updIntField_not_error _ _ _ _ hh2)
    | ok hv =>
      dsimp only
      rw [writeRegistry_surfaces, dGet?_dSet_self,
        updIntField_ok_val _ _ _ _ hwv, updIntField_ok_val _ _ _ _ hhv]

/-- C4 (witness): concrete re-creation of surface 1 with only w present. -/
theorem create_recreation_fields_witness :
    dGet? (handleCreate (onLine initBridge
      "RAYOS_LINUX_SURFACE_CREATE id=1 role=toplevel title=T format=argb w=10 h=20").1
      [("id", "1"), ("w", "30")]).1.surfaces "1" =
      some { surface_id := "1", role := none, title := none, format := none,
             w := some 30, h := some 20, window_id := some "win-1" } := by
  have h := create_recreation_fields (onLine initBridge
      "RAYOS_LINUX_SURFACE_CREATE id=1 role=toplevel title=T format=argb w=10 h=20").1
      [("id", "1"), ("w", "30")] "1"
      { surface_id := "1", role := some "toplevel", title := some "T", format := some "argb",
        w := some 10, h := some 20, window_id := some "win-1" }
      (by decide) (by decide) (by decide) (by decide)
  exact h

/-- C5 (counterexample): a FRAME_END line carrying neither id nor seq closes
the open frame (id 1, seq 0) and produces its artifact instead of being
ignored: the missing id falls back to the open frame's own id and the
missing seq defaults to 0, which matches. -/
theorem frameEnd_missing_keys_cex :
    (runLines initBridge ["RAYOS_LINUX_SURFACE_FRAME_BEGIN id=1 seq=0", "x",
        "RAYOS_LINUX_SURFACE_FRAME_END"]).1.current_key = none ∧
    (runLines initBridge ["RAYOS_LINUX_SURFACE_FRAME_BEGIN id=1 seq=0", "x",
        "RAYOS_LINUX_SURFACE_FRAME_END"]).1.frames_written.length = 1 := by
  decide

/-- C5 (amended): a FRAME_END line closes the open frame exactly when the
effective id — the line's id value, where a missing or empty id falls back
to the open frame's own id — equals the open frame's id, and the line's seq
value (defaulting to 0 when absent) equals the open frame's seq; any
mismatch leaves the frame open with its accumulated content intact. -/
theorem frameEnd_characterization (st : BridgeState) (k : FrameKey)
    (kv : List (String × String)) (n : Int)
    (hk : st.current_key = some k)
    (hs : pyInt? ((dGet? kv "seq").getD "0") = some n) :
    handleFrameEnd st kv =
      (if frameEndSidEff kv k = k.surface_id ∧ n = k.seq
       then flushCurrent st false else (st, none)) := by
  unfold handleFrameEnd
  rw [hs]
  dsimp only
  rw [hk]
  dsimp only
  by_cases h1 : frameEndSidEff kv k = k.surface_id
  · by_cases h2 : n = k.seq
    · simp [h1, h2]
    · simp [h1, h2]
      intro h3
      exact absurd h3.symm h2
  · simp [h1]
    intro h3
    exact absurd h3.symm h1

/-- C5 (witness): a FRAME_END with no key=value tokens closes the open
frame (1, 0). -/
theorem frameEnd_characterization_witness :
    handleFrameEnd (runLines initBridge
      ["RAYOS_LINUX_SURFACE_FRAME_BEGIN id=1 seq=0", "x"]).1 [] =
      (if frameEndSidEff [] ⟨"1", 0⟩ = "1" ∧ (0 : Int) = (0 : Int)
       then flushCurrent (runLines initBridge
         ["RAYOS_LINUX_SURFACE_FRAME_BEGIN id=1 seq=0", "x"]).1 false
       else ((runLines initBridge
         ["RAYOS_LINUX_SURFACE_FRAME_BEGIN id=1 seq=0", "x"]).1, none)) :=
  frameEnd_characterization _ ⟨"1", 0⟩ [] 0 (by decide) (by decide)

/-- C6 (counterexample): a CONFIGURE line referencing the unseen id 1
implicitly creates the surface but appends nothing to the z-order, so the
derived window id is not an element of the z-order list. -/
theorem configure_no_zorder_cex :
    dContains (onLine initBridge "RAYOS_LINUX_SURFACE_CONFIGURE id=1 x=5").1.surfaces "1" = true ∧
    (onLine initBridge "RAYOS_LINUX_SURFACE_CONFIGURE id=1 x=5").1.z_order = [] := by
  decide

/-- C6 (amended): creations by CREATE, ROLE, STATE, FOCUS and PARENT lines
append the derived window id to the z-order; a CONFIGURE line referencing an
unseen id creates the surface without touching the z-order at all. -/
theorem creation_zorder (st : BridgeState) (kv : List (String × String)) (sid : String)
    (hg : getNE kv "id" = some sid) (hu : dGet? st.surfaces sid = none) :
    ("win-" ++ sid) ∈ (handleCreate st kv).1.z_order ∧
    ("win-" ++ sid) ∈ (handleRole st kv).1.z_order ∧
    ("win-" ++ sid) ∈ (handleState st kv).1.z_order ∧
    ("win-" ++ sid) ∈ (handleFocus st kv).1.z_order ∧
    (∀ psid, getNE kv "parent" = some psid →
      ("win-" ++ sid) ∈ (handleParent st kv).1.z_order) ∧
    (dContains (handleConfigure st kv).1.surfaces sid = true ∧
     (handleConfigure st kv).1.z_order = st.z_order) := by
  refine ⟨?_, ?_, ?_, ?_, ?_, ?_, ?_⟩
  · unfold handleCreate
    rw [hg]
    dsimp only
    unfold ensureSurfaceZ
    simp only [dContains_eq_false hu, Bool.false_eq_true, if_false]
    repeat' split
    all_goals
      first
        | exact mem_zAppend _ _
        | (rw [writeRegistry_z_order]; exact mem_zAppend _ _)
  · unfold handleRole
    rw [hg]
    dsimp only
    unfold ensureSurfaceZ
    simp only [dContains_eq_false hu, Bool.false_eq_true, if_false]
    rw [writeRegistry_z_order]
    exact mem_zAppend _ _
  · unfold handleState
    rw [hg]
    dsimp only
    unfold ensureSurfaceZ
    simp only [dContains_eq_false hu, Bool.false_eq_true, if_false]
    rw [writeRegistry_z_order]
    exact mem_zAppend _ _
  · unfold handleFocus
    rw [hg]
    dsimp only
    simp only [dContains_eq_false hu, Bool.false_eq_true, if_false, dGet?_dSet_self,
      newInfo, Option.getD_some]
    repeat' split
    all_goals rw [writeRegistry_z_order]
    all_goals
      first
        | exact List.mem_append_right _ (List.mem_singleton.mpr rfl)
        | exact mem_zAppend _ _
  · intro psid hp
    unfold handleParent
    rw [hg, hp]
    dsimp only
    unfold ensureSurfaceZ
    simp only [dContains_eq_false hu, Bool.false_eq_true, if_false]
    split
    · rw [writeRegistry_z_order]
      exact mem_zAppend _ _
    · rw [writeRegistry_z_order]
      exact mem_zAppend_mono _ _ _ (mem_zAppend _ _)
  · unfold handleConfigure
    rw [hg]
    dsimp only
    simp only [dContains_eq_false hu, Bool.false_eq_true, if_false]
    repeat' split
    all_goals
      first
        | exact dContains_of_dGet? (dGet?_dSet_self _ _ _)
        | (rw [writeRegistry_surfaces]; exact dContains_of_dGet? (dGet?_dSet_self _ _ _))
  · unfold handleConfigure
    rw [hg]
    dsimp only
    simp only [dContains_eq_false hu, Bool.false_eq_true, if_false]
    repeat' split
    all_goals
      first
        | rfl
        | (rw [writeRegistry_z_order])

/-- C6 (witness): a CONFIGURE line creating unseen surface 9 leaves the
z-order unchanged while a FOCUS creation appends win-9. -/
theorem creation_zorder_witness :
    ("win-" ++ "9") ∈ (handleFocus initBridge [("id", "9")]).1.z_order ∧
    (handleConfigure initBridge [("id", "9")]).1.z_order = initBridge.z_order := by
  have h := creation_zorder initBridge [("id", "9")] "9" (by decide) (by decide)
  exact ⟨h.2.2.2.1, h.2.2.2.2.2.2⟩

/-- C8: a FRAME_BEGIN interrupting an already-open frame first flushes it as
a completed artifact when it has accumulated content — updating the owning
surface's latest_seq, latest_sha256 and latest_path — and silently drops it
without an artifact when it has none; the new frame is then opened for the
line's id and seq. -/
theorem frameBegin_interrupt (st : BridgeState) (k : FrameKey) (kv : List (String × String))
    (hk : st.current_key = some k) (hst : stateOk st = true) :
    (st.current_lines ≠ [] →
      (handleFrameBegin st kv).1.frames_written =
        st.frames_written ++ [artifactOf k st.current_lines] ∧
      ∃ info2, dGet? (handleFrameBegin st kv).1.surfaces k.surface_id = some info2 ∧
        info2.latest_seq = some k.seq ∧
        info2.latest_sha256 = some (sha256hex (String.intercalate "\n" st.current_lines ++ "\n")) ∧
        info2.latest_path = some ("frames/surface-" ++ k.surface_id ++ "-seq-" ++
          toString k.seq ++ ".ppm")) ∧
    (st.current_lines = [] →
      (handleFrameBegin st kv).1.frames_written = st.frames_written ∧
      (handleFrameBegin st kv).1.surfaces = st.surfaces) ∧
    (∀ sid n, getNE kv "id" = some sid →
      pyInt? ((dGet? kv "seq").getD "0") = some n →
      (handleFrameBegin st kv).1.current_key = some ⟨sid, n⟩) := by
  cases hf : flushCurrent st false with
  | mk s2 e =>
    have he : e = none := by
      have h2 := flushCurrent_no_error st false hst
      rw [hf] at h2
      exact h2
    subst he
    have hA : (handleFrameBegin st kv).1.frames_written = s2.frames_written := by
      unfold handleFrameBegin
      rw [hf]
      dsimp only
      cases getNE kv "id" with
      | none => rfl
      | some sid =>
        dsimp only
        cases pyInt? ((dGet? kv "seq").getD "0") with
        | none => rfl
        | some n => rfl
    have hB : (handleFrameBegin st kv).1.surfaces = s2.surfaces := by
      unfold handleFrameBegin
      rw [hf]
      dsimp only
      cases getNE kv "id" with
      | none => rfl
      | some sid =>
        dsimp only
        cases pyInt? ((dGet? kv "seq").getD "0") with
        | none => rfl
        | some n => rfl
    refine ⟨?_, ?_, ?_⟩
    · intro hl
      have hcond : (st.current_lines.isEmpty && !false) = false := by
        cases hcl : st.current_lines with
        | nil => exact absurd hcl hl
        | cons a l => rfl
      have hff := flushCurrent_flush st k false hk hcond
      rw [hf] at hff
      refine ⟨by rw [hA]; exact hff.1, ⟨_, by rw [hB]; exact hff.2, rfl, rfl, rfl⟩⟩
    · intro hl
      have hfe := flushCurrent_empty st k hk hl
      rw [hf] at hfe
      simp only [Prod.mk.injEq] at hfe
      obtain ⟨hs2, -⟩ := hfe
      constructor
      · rw [hA, hs2]
      · rw [hB, hs2]
    · intro sid n hg hp
      unfold handleFrameBegin
      rw [hf]
      dsimp only
      rw [hg]
      dsimp only
      rw [hp]

/-- C8 (witness): a FRAME_BEGIN for (2, 5) interrupting the open non-empty
frame (1, 0) appends that frame's artifact. -/
theorem frameBegin_interrupt_witness :
    (handleFrameBegin (runLines initBridge
      ["RAYOS_LINUX_SURFACE_FRAME_BEGIN id=1 seq=0", "x"]).1
      [("id", "2"), ("seq", "5")]).1.frames_written =
      (runLines initBridge ["RAYOS_LINUX_SURFACE_FRAME_BEGIN id=1 seq=0", "x"]).1.frames_written ++
        [artifactOf ⟨"1", 0⟩ (runLines initBridge
          ["RAYOS_LINUX_SURFACE_FRAME_BEGIN id=1 seq=0", "x"]).1.current_lines] :=
  ((frameBegin_interrupt _ ⟨"1", 0⟩ [("id", "2"), ("seq", "5")]
      (by decide) (by decide)).1 (by decide)).1

/-- C10: a FRAME_BEGIN line carrying no id (or an empty one) behaves exactly
as the non-partial flush of any open frame and leaves no frame open; with no
frame open, every line matching none of the tag regexes is discarded without
being accumulated as content. -/
theorem frameBegin_missing_id (st : BridgeState) (kv : List (String × String))
    (hg : getNE kv "id" = none) :
    handleFrameBegin st kv = flushCurrent st false ∧
    (handleFrameBegin st kv).1.current_key = none ∧
    (∀ (st2 : BridgeState) (line : String), st2.current_key = none →
      unmatchedLine line = true → onLine st2 line = (st2, none)) := by
  have h1 : handleFrameBegin st kv = flushCurrent st false := by
    unfold handleFrameBegin
    cases hf : flushCurrent st false with
    | mk s2 e =>
      cases e with
      | none =>
        dsimp only
        rw [hg]
      | some err => rfl
  refine ⟨h1, ?_, ?_⟩
  · rw [h1]
    exact flushCurrent_key_none st false
  · intro st2 line h2 hu
    unfold unmatchedLine at hu
    simp only [Bool.and_eq_true, Option.isNone_iff_eq_none] at hu
    obtain ⟨⟨⟨⟨⟨⟨⟨⟨u1, u2⟩, u3⟩, u4⟩, u5⟩, u6⟩, u7⟩, u8⟩, u9⟩ := hu
    simp only [onLine, u1, u2, u3, u4, u5, u6, u7, u8, u9]
    rw [h2]
    simp

/-- C10 (witness): a FRAME_BEGIN with no tokens over the open frame (1, 0)
equals the non-partial flush. -/
theorem frameBegin_missing_id_witness :
    handleFrameBegin (runLines initBridge
      ["RAYOS_LINUX_SURFACE_FRAME_BEGIN id=1 seq=0", "x"]).1 [] =
      flushCurrent (runLines initBridge
        ["RAYOS_LINUX_SURFACE_FRAME_BEGIN id=1 seq=0", "x"]).1 false :=
  (frameBegin_missing_id _ [] (by decide)).1

end RayOS
